import Mathlib

/-!
Shallow embedding of the three-stage YouTube job pipeline:

* `src/steps/01-submit.step.ts` — the `POST /submit` handler.  The file holds
  two variants of the handler; they differ only in the job-store key they
  write (`"job:" ++ jobID` in the first, `"job: " ++ jobID` in the second).
* `src/steps/02-resolveChannel.step.ts` — the `yt.submit` subscriber that
  resolves a channel handle via the external search call.
* `src/unnamed/part_000` — the `yt.channel.resolved` subscriber that fetches
  the latest videos for the resolved channel.

The job store (`state.get` / `state.set`) is modelled as an association list
from string keys to job records; records and event payloads are structures
with `Option` fields so that an absent (`undefined`) field is `none`.
External effects (environment variable, network search and listing calls)
are parameters of the handlers: a call that returns is `Except.ok`, a call
that throws is `Except.error` carrying the thrown message.
-/

/-- Video record shape stored by the listing stage, per `src/unnamed/part_000`
(interface `Video`). -/
structure Video where
  videoID : String
  title : String
  url : String
  publishedAt : String
  thumbnail : String
deriving DecidableEq

/-- Raw item of the external listing response: the fields of `item` that
`src/unnamed/part_000` reads (`item.id.videoId`, `item.snippet.title`,
`item.snippet.publishedAt`, `item.snippet.thumbnails.default.url`). -/
structure RawItem where
  videoId : String
  title : String
  publishedAt : String
  thumbnailUrl : String
deriving DecidableEq

/-- Raw item of the external channel-search response: the fields that
`src/steps/02-resolveChannel.step.ts` reads (`items[0].id.channelId`,
`items[0].snippet.title`). -/
structure ChanItem where
  channelId : String
  title : String
deriving DecidableEq

/-- Persisted job record.  Every field is optional because the stages build
records by object spread: a field a write does not set is simply absent. -/
structure JobRecord where
  jobID : Option String := none
  channel : Option String := none
  email : Option String := none
  status : Option String := none
  error : Option String := none
  createdAt : Option String := none
  channelID : Option String := none
  channelName : Option String := none
  videos : Option (List Video) := none
deriving DecidableEq

/-- Event payload: the union of all fields appearing in the `data` objects
emitted by the three steps; an absent field is `none`. -/
structure EventData where
  jobID : Option String := none
  channel : Option String := none
  email : Option String := none
  channelID : Option String := none
  channelName : Option String := none
  error : Option String := none
  videos : Option (List Video) := none
deriving DecidableEq

/-- One `emit` call: a topic and its payload. -/
structure Emitted where
  topic : String
  data : EventData
deriving DecidableEq

/-- HTTP response of the submit handler. -/
structure ApiResponse where
  status : Nat
  success : Option Bool := none
  jobID : Option String := none
  message : Option String := none
  error : Option String := none
deriving DecidableEq

/-- The job store: most recent write first; `stGet` finds the newest
binding, which gives `state.set` full-record overwrite semantics. -/
abbrev Store := List (String × JobRecord)

/-- `state.get(key)` — `undefined` (here `none`) when the key is absent. -/
def stGet (s : Store) (k : String) : Option JobRecord :=
  (s.find? (fun p => p.1 == k)).map (fun p => p.2)

/-- `state.set(key, record)` — overwrites any previous binding of `key`. -/
def stSet (s : Store) (k : String) (r : JobRecord) : Store :=
  (k, r) :: s

/-- JavaScript object spread `{...jobData}` where `jobData` may be
`undefined`: spreading `undefined` contributes no fields. -/
def spreadOf (o : Option JobRecord) : JobRecord :=
  o.getD {}

/-- JavaScript truthiness of a possibly-`undefined` string: `undefined` and
the empty string are falsy. -/
def jsTruthy (o : Option String) : Bool :=
  match o with
  | some st => !(st == "")
  | none => false

/-- Template-literal interpolation of a possibly-`undefined` string:
`undefined` renders as `"undefined"`. -/
def jsString (o : Option String) : String :=
  o.getD "undefined"

/-- The decimal digit characters. -/
def digitChar (d : Nat) : Char :=
  ['0', '1', '2', '3', '4', '5', '6', '7', '8', '9'].getD d '0'

/-- Fuel-driven decimal rendering helper (the fuel `n + 1` always
suffices, since `n / 10 < n` for `n ≥ 10`). -/
def natDecimalAux : Nat → Nat → List Char
  | 0, _ => []
  | fuel + 1, n =>
    if n < 10 then [digitChar n]
    else natDecimalAux fuel (n / 10) ++ [digitChar (n % 10)]

/-- Decimal rendering of a natural number, as JavaScript renders
`Date.now()` inside a template literal. -/
def natDecimal (n : Nat) : List Char :=
  natDecimalAux (n + 1) n

/-- The generated job identifier
`` `job_${Date.now()}_${Math.random().toString(36).substring(2, 9)}` ``:
`now` is the clock reading and `suffix` stands for the random base-36
suffix (characters drawn from `0-9a-z`). -/
def mkJobID (now : Nat) (suffix : String) : String :=
  "job_" ++ (natDecimal now).asString ++ "_" ++ suffix

/-- The email validation regex `/^[^\s@]+@[^\s@]+\.[^\s@]+$/` of the submit
handler: one `@`, a nonempty whitespace-free local part, and a
whitespace-free domain containing a dot that is neither its first nor its
last character. -/
def emailTest (s : String) : Bool :=
  match s.toList.splitOn '@' with
  | [a, b] =>
    !a.isEmpty && a.all (fun c => !c.isWhitespace) &&
      b.all (fun c => !c.isWhitespace) && ((b.drop 1).dropLast.contains '.')
  | _ => false

/-- Result of one submit-handler invocation: HTTP response, final store,
the `state.set` calls in order, and the `emit` calls in order. -/
structure SubmitOut where
  resp : ApiResponse
  store : Store
  writes : List (String × JobRecord)
  events : List Emitted
deriving DecidableEq

/-- Result of one event-handler invocation (resolution or listing stage). -/
structure StepResult where
  store : Store
  writes : List (String × JobRecord)
  events : List Emitted
deriving DecidableEq

/-- The submit handler of `src/steps/01-submit.step.ts`, parametrised by the
job-store key builder (the file's two variants differ only there).
Validates the two fields (JS falsiness: absent or empty is invalid), then
the email regex; on success creates the job record with `status: "queued"`,
emits one `yt.submit` event and returns `201`. -/
def submitHandlerWith (jobKey : String → String) (channel email : Option String)
    (now : Nat) (suffix : String) (createdAt : String) (s : Store) : SubmitOut :=
  match channel, email with
  | some ch, some em =>
    if ch == "" || em == "" then
      { resp := { status := 400, error := some "Channel and email are required" },
        store := s, writes := [], events := [] }
    else if !(emailTest em) then
      { resp := { status := 400, error := some "Invalid email format" },
        store := s, writes := [], events := [] }
    else
      let jid := mkJobID now suffix
      let record : JobRecord :=
        { jobID := some jid, channel := some ch, email := some em,
          status := some "queued", createdAt := some createdAt }
      let key := jobKey jid
      { resp := { status := 201, success := some true, jobID := some jid,
                  message := some "Job submitted successfully. You will get an email soon." },
        store := stSet s key record,
        writes := [(key, record)],
        events := [{ topic := "yt.submit",
                     data := { jobID := some jid, channel := some ch, email := some em } }] }
  | _, _ =>
    { resp := { status := 400, error := some "Channel and email are required" },
      store := s, writes := [], events := [] }

/-- Job-store key of the first submit variant: `` `job:${jobID}` ``. -/
def submitKeyV1 (jid : String) : String := "job:" ++ jid

/-- Job-store key of the second submit variant and of the resolution and
listing stages: `` `job: ${jobID}` `` (note the space). -/
def pipeKey (jid : String) : String := "job: " ++ jid

/-- First submit handler of `src/steps/01-submit.step.ts` (writes under
`"job:" ++ jobID`). -/
def submitHandler : Option String → Option String → Nat → String → String → Store → SubmitOut :=
  submitHandlerWith submitKeyV1

/-- Second submit handler of `src/steps/01-submit.step.ts` (writes under
`"job: " ++ jobID`). -/
def submitHandler2 : Option String → Option String → Nat → String → String → Store → SubmitOut :=
  submitHandlerWith pipeKey

/-- `channel.startsWith('@')`. -/
def startsWithAt (ch : String) : Bool :=
  match ch.toList with
  | c :: _ => c == '@'
  | [] => false

/-- The TypeError message raised by `channel.startsWith('@')` when `channel`
is `undefined`. -/
def undefinedChannelMsg : String :=
  "Cannot read properties of undefined (reading 'startsWith')"

/-- The error thrown when the `YOUTUBE_API_KEY` environment variable is
absent (same message in both event handlers). -/
def missingKeyMsg : String :=
  "YOUTUBE_API_KEY is not set in environment variables"

/-- Catch block of the resolution handler: if `jobID` or `email` is falsy
the failure is only logged (no write, no emit); otherwise the job record is
re-read, overwritten with `status: "failed"` and the thrown message, and a
`yt.channel.error` event is emitted. -/
def resolveCatch (jobID email : Option String) (msg : String)
    (s : Store) (ws : List (String × JobRecord)) : StepResult :=
  if jsTruthy jobID && jsTruthy email then
    let key := pipeKey (jsString jobID)
    let jobData := stGet s key
    let r : JobRecord :=
      { spreadOf jobData with status := some "failed", error := some msg }
    { store := stSet s key r, writes := ws ++ [(key, r)],
      events := [{ topic := "yt.channel.error",
                   data := { jobID := jobID, email := email,
                             error := some ("Failed to resolve channel: " ++ msg) } }] }
  else
    { store := s, writes := ws, events := [] }

/-- The `if (!channelID)` branch of the resolution handler: overwrite the
job with `status: "failed"`, `error: "Channel not found"` (spreading the
record read at the start of the handler) and emit `yt.channel.error` with
payload `{jobID, email}` only. -/
def resolveNotFound (jobID email : Option String) (key : String)
    (jobData : Option JobRecord) (s : Store) (ws : List (String × JobRecord)) : StepResult :=
  let r : JobRecord :=
    { spreadOf jobData with status := some "failed", error := some "Channel not found" }
  { store := stSet s key r, writes := ws ++ [(key, r)],
    events := [{ topic := "yt.channel.error",
                 data := { jobID := jobID, email := email } }] }

/-- The event handler of `src/steps/02-resolveChannel.step.ts`.
`apiKey` models `process.env.YOUTUBE_API_KEY`; `primary` is the outcome of
the handle search call, `fallback` of the raw-text fallback search call.
After the API-key check it writes `status: "resolving channel"`.  For a
handle, a nonempty primary result yields the `yt.channel.resolved` emission
(the store is not written again); an empty primary result triggers the
fallback call, whose result is never assigned to `channelID`/`channelName`,
so control falls through to the not-found branch. -/
def resolveHandler (ev : EventData) (apiKey : Option String)
    (primary fallback : Except String (List ChanItem)) (s : Store) : StepResult :=
  let jobID := ev.jobID
  let email := ev.email
  let channel := ev.channel
  match apiKey with
  | none => resolveCatch jobID email missingKeyMsg s []
  | some _ =>
    let key := pipeKey (jsString jobID)
    let jobData := stGet s key
    let r1 : JobRecord := { spreadOf jobData with status := some "resolving channel" }
    let s1 := stSet s key r1
    let ws1 := [(key, r1)]
    match channel with
    | none => resolveCatch jobID email undefinedChannelMsg s1 ws1
    | some ch =>
      if startsWithAt ch then
        match primary with
        | .error msg => resolveCatch jobID email msg s1 ws1
        | .ok items =>
          match items with
          | item :: _ =>
            { store := s1, writes := ws1,
              events := [{ topic := "yt.channel.resolved",
                           data := { jobID := jobID, channelID := some item.channelId,
                                     channelName := some item.title, email := email } }] }
          | [] =>
            match fallback with
            | .error msg => resolveCatch jobID email msg s1 ws1
            | .ok _ => resolveNotFound jobID email key jobData s1 ws1
      else
        resolveNotFound jobID email key jobData s1 ws1

/-- Catch block of the listing handler (same structure as `resolveCatch`,
with the `yt.videos.error` topic and message prefix of
`src/unnamed/part_000`). -/
def fetchCatch (jobID email : Option String) (msg : String)
    (s : Store) (ws : List (String × JobRecord)) : StepResult :=
  if jsTruthy jobID && jsTruthy email then
    let key := pipeKey (jsString jobID)
    let jobData := stGet s key
    let r : JobRecord :=
      { spreadOf jobData with status := some "failed", error := some msg }
    { store := stSet s key r, writes := ws ++ [(key, r)],
      events := [{ topic := "yt.videos.error",
                   data := { jobID := jobID, email := email,
                             error := some ("Failed to fetch videos: " ++ msg) } }] }
  else
    { store := s, writes := ws, events := [] }

/-- Mapping of one raw listing item into the stored `Video` shape, per
`src/unnamed/part_000`. -/
def mapVideo (r : RawItem) : Video :=
  { videoID := r.videoId, title := r.title,
    url := "https://www.youtube.com/watch?v=" ++ r.videoId,
    publishedAt := r.publishedAt, thumbnail := r.thumbnailUrl }

/-- The event handler of `src/unnamed/part_000`.  `listing` is the outcome
of the external listing call.  After the API-key check it writes
`status: "fetching videos"`; an empty item list yields the failure record
(`error: "no videos found"`) and a `yt.videos.error` event whose `error`
field is `"No videos found for channel"`; otherwise the mapped videos are
persisted with `status: "videos fetched"` and `yt.videos.fetched` is
emitted. -/
def fetchHandler (ev : EventData) (apiKey : Option String)
    (listing : Except String (List RawItem)) (s : Store) : StepResult :=
  let jobID := ev.jobID
  let email := ev.email
  match apiKey with
  | none => fetchCatch jobID email missingKeyMsg s []
  | some _ =>
    let key := pipeKey (jsString jobID)
    let jobData := stGet s key
    let r1 : JobRecord := { spreadOf jobData with status := some "fetching videos" }
    let s1 := stSet s key r1
    let ws1 := [(key, r1)]
    match listing with
    | .error msg => fetchCatch jobID email msg s1 ws1
    | .ok items =>
      if items.isEmpty then
        let r2 : JobRecord :=
          { spreadOf jobData with status := some "failed", error := some "no videos found" }
        { store := stSet s1 key r2, writes := ws1 ++ [(key, r2)],
          events := [{ topic := "yt.videos.error",
                       data := { jobID := jobID, email := email,
                                 error := some "No videos found for channel" } }] }
      else
        let videos := items.map mapVideo
        let r3 : JobRecord :=
          { spreadOf jobData with status := some "videos fetched", videos := some videos }
        { store := stSet s1 key r3, writes := ws1 ++ [(key, r3)],
          events := [{ topic := "yt.videos.fetched",
                       data := { jobID := jobID, videos := some videos,
                                 channelName := ev.channelName, email := email } }] }

/-- Lexicographic comparison of character lists (the ordering JavaScript /
the YouTube API use on ISO-8601 `publishedAt` strings). -/
def leChars : List Char → List Char → Bool
  | [], _ => true
  | _ :: _, [] => false
  | a :: as, b :: bs =>
    if a < b then true else if b < a then false else leChars as bs

/-- String comparison via `leChars`. -/
def strLe (a b : String) : Bool :=
  leChars a.toList b.toList

/-- Ordering "more recently published first" on raw listing items. -/
def byRecent (a b : RawItem) : Prop :=
  strLe b.publishedAt a.publishedAt = true

instance : DecidableRel byRecent :=
  fun a b => inferInstanceAs (Decidable (strLe b.publishedAt a.publishedAt = true))

/-- The `maxResults=5` request parameter of the listing URL in
`src/unnamed/part_000`. -/
def maxResults : Nat := 5

/-- Model of the external listing capability for the request URL built by
`src/unnamed/part_000` (`maxResults=5&order=date`): of the items available
on the channel, the most recently published `maxResults`, ordered by
`publishedAt` descending. -/
def listCapability (available : List RawItem) : List RawItem :=
  (List.insertionSort byRecent available).take maxResults

/-- One run of the pipeline on one submission, parametrised by the submit
variant's key builder: the submit handler runs on an empty store; its
emitted `yt.submit` event (when present) triggers the resolution handler;
the resolution handler's `yt.channel.resolved` event (when present)
triggers the listing handler.  Store writes and emitted events are
collected in order. -/
structure RunOut where
  store : Store
  writes : List (String × JobRecord)
  events : List Emitted
deriving DecidableEq

/-- Composition of the three stages over the event bus (one subscriber per
topic, each stage triggered by the previous stage's emission). -/
def runPipeline (jobKey : String → String) (channel email : Option String)
    (now : Nat) (suffix : String) (createdAt : String)
    (apiKey1 : Option String) (primary fallback : Except String (List ChanItem))
    (apiKey2 : Option String) (listing : Except String (List RawItem)) : RunOut :=
  let sub := submitHandlerWith jobKey channel email now suffix createdAt []
  match sub.events with
  | [e] =>
    let res := resolveHandler e.data apiKey1 primary fallback sub.store
    match res.events.filter (fun ev => ev.topic == "yt.channel.resolved") with
    | [e2] =>
      let fet := fetchHandler e2.data apiKey2 listing res.store
      { store := fet.store, writes := sub.writes ++ res.writes ++ fet.writes,
        events := sub.events ++ res.events ++ fet.events }
    | _ =>
      { store := res.store, writes := sub.writes ++ res.writes,
        events := sub.events ++ res.events }
  | _ => { store := sub.store, writes := sub.writes, events := sub.events }

/-- The five status strings the code writes. -/
def codeStatuses : List String :=
  ["queued", "resolving channel", "fetching videos", "videos fetched", "failed"]

/-- Correspondence between the status strings the code stores and the
specification's enumeration
`queued | resolving-channel | fetching-items | items-fetched | failed`
(the specification names videos "items" and hyphenates); `none` for any
string outside the code's five. -/
def specStatusName (st : String) : Option String :=
  if st == "queued" then some "queued"
  else if st == "resolving channel" then some "resolving-channel"
  else if st == "fetching videos" then some "fetching-items"
  else if st == "videos fetched" then some "items-fetched"
  else if st == "failed" then some "failed"
  else none

/-- Pipeline position of a status: terminal `failed` ranks last; strings
outside the enumeration get a junk rank. -/
def statusRank (st : String) : Nat :=
  if st == "queued" then 0
  else if st == "resolving channel" then 1
  else if st == "fetching videos" then 2
  else if st == "videos fetched" then 3
  else if st == "failed" then 4
  else 5

/-- The statuses carried by a sequence of store writes, in order. -/
def writeStatuses (ws : List (String × JobRecord)) : List String :=
  ws.filterMap (fun p => p.2.status)

/-- Adjacent-pair monotonicity of status ranks along a write sequence. -/
def ranksMono : List String → Bool
  | [] => true
  | [_] => true
  | a :: b :: rest => Nat.ble (statusRank a) (statusRank b) && ranksMono (b :: rest)

/-- Adjacent-pair check that a video list is ordered by `publishedAt`
descending. -/
def videosSortedDesc : List Video → Bool
  | [] => true
  | [_] => true
  | a :: b :: rest => strLe b.publishedAt a.publishedAt && videosSortedDesc (b :: rest)

/-- Shape `job_<digits>_<alphanumeric>` of a generated job identifier. -/
def jobIDShape (s : String) : Bool :=
  match s.toList with
  | c1 :: c2 :: c3 :: c4 :: rest =>
    c1 == 'j' && c2 == 'o' && c3 == 'b' && c4 == '_' &&
      (!(rest.takeWhile Char.isDigit).isEmpty) &&
      (match rest.dropWhile Char.isDigit with
       | u :: suf => u == '_' && (!suf.isEmpty) && suf.all Char.isAlphanum
       | _ => false)
  | _ => false

/-- A written record agrees with a reference record on every job-record
field other than `status`, `error` and `videos`. -/
def fieldsPreserved (r r0 : JobRecord) : Prop :=
  r.jobID = r0.jobID ∧ r.channel = r0.channel ∧ r.email = r0.email ∧
    r.createdAt = r0.createdAt ∧ r.channelID = r0.channelID ∧
    r.channelName = r0.channelName

/-- Reading back the key just written returns the written record. -/
theorem stGet_stSet_self (s : Store) (k : String) (r : JobRecord) :
    stGet (stSet s k r) k = some r := by
  simp [stGet, stSet, List.find?]

/-- A decimal digit character is a digit. -/
theorem digitChar_isDigit (d : Nat) (h : d < 10) : (digitChar d).isDigit = true := by
  interval_cases d <;> decide

/-- The fuel-driven decimal rendering produces only digit characters. -/
theorem natDecimalAux_digits (fuel : Nat) :
    ∀ n, (natDecimalAux fuel n).all Char.isDigit = true := by
  induction fuel with
  | zero => intro n; rfl
  | succ fuel ih =>
    intro n
    by_cases h : n < 10
    · simp [natDecimalAux, h, digitChar_isDigit n h]
    · have h10 : n % 10 < 10 := Nat.mod_lt _ (by decide)
      simp [natDecimalAux, h, List.all_append, ih (n / 10), digitChar_isDigit _ h10]

/-- The fuel-driven decimal rendering is nonempty for positive fuel. -/
theorem natDecimalAux_ne_nil (fuel n : Nat) : natDecimalAux (fuel + 1) n ≠ [] := by
  by_cases h : n < 10 <;> simp [natDecimalAux, h]

/-- The decimal rendering of a natural number is a nonempty digit string. -/
theorem natDecimal_digits (n : Nat) : (natDecimal n).all Char.isDigit = true :=
  natDecimalAux_digits (n + 1) n

theorem natDecimal_ne_nil (n : Nat) : natDecimal n ≠ [] :=
  natDecimalAux_ne_nil n n

/-- Character list of a generated job identifier. -/
theorem mkJobID_data (now : Nat) (suffix : String) :
    (mkJobID now suffix).toList =
      'j' :: 'o' :: 'b' :: '_' :: (natDecimal now ++ '_' :: suffix.toList) := by
  show (mkJobID now suffix).data = _
  simp [mkJobID, String.data_append]
  rfl

/-- A generated job identifier is never the empty string. -/
theorem mkJobID_ne_empty (now : Nat) (suffix : String) : mkJobID now suffix ≠ "" := by
  intro h
  have : (mkJobID now suffix).toList = "".toList := by rw [h]
  rw [mkJobID_data] at this
  simp at this

/-- `takeWhile` walks through a prefix all of whose elements satisfy the
predicate. -/
theorem takeWhile_append_all {p : Char → Bool} :
    ∀ (l1 l2 : List Char), l1.all p = true →
      (l1 ++ l2).takeWhile p = l1 ++ l2.takeWhile p := by
  intro l1 l2 h
  induction l1 with
  | nil => rfl
  | cons a as ih =>
    rw [List.all_cons, Bool.and_eq_true] at h
    simp [List.takeWhile_cons, h.1, ih h.2]

/-- `dropWhile` drops a prefix all of whose elements satisfy the
predicate. -/
theorem dropWhile_append_all {p : Char → Bool} :
    ∀ (l1 l2 : List Char), l1.all p = true →
      (l1 ++ l2).dropWhile p = l2.dropWhile p := by
  intro l1 l2 h
  induction l1 with
  | nil => rfl
  | cons a as ih =>
    rw [List.all_cons, Bool.and_eq_true] at h
    simp [List.dropWhile_cons, h.1, ih h.2]

/-- A generated job identifier matches `job_<digits>_<alphanumeric>`
whenever the random suffix is a nonempty alphanumeric string. -/
theorem jobIDShape_mkJobID (now : Nat) (suffix : String)
    (h1 : suffix ≠ "") (h2 : suffix.toList.all Char.isAlphanum = true) :
    jobIDShape (mkJobID now suffix) = true := by
  have hd := mkJobID_data now suffix
  have hdig := natDecimal_digits now
  have hsuf : suffix.toList ≠ [] := by
    intro h
    exact h1 (String.ext (by simpa using h))
  unfold jobIDShape
  rw [hd]
  have ht : (natDecimal now ++ '_' :: suffix.toList).takeWhile Char.isDigit =
      natDecimal now ++ ('_' :: suffix.toList).takeWhile Char.isDigit :=
    takeWhile_append_all _ _ hdig
  have hdr : (natDecimal now ++ '_' :: suffix.toList).dropWhile Char.isDigit =
      ('_' :: suffix.toList).dropWhile Char.isDigit :=
    dropWhile_append_all _ _ hdig
  have hu : ('_' :: suffix.toList).takeWhile Char.isDigit = [] := by
    simp [List.takeWhile_cons]
  have hu2 : ('_' :: suffix.toList).dropWhile Char.isDigit = '_' :: suffix.toList := by
    simp [List.dropWhile_cons]
  simp only [ht, hdr, hu, hu2, List.append_nil]
  simp [natDecimal_ne_nil now]
  exact ⟨hsuf, List.all_eq_true.mp h2⟩

/-- A string passing the email regex is nonempty. -/
theorem emailTest_ne_empty (em : String) (h : emailTest em = true) : em ≠ "" := by
  intro he
  rw [he] at h
  exact absurd h (by decide)

/-- `leChars` is total. -/
theorem leChars_total : ∀ x y : List Char, leChars x y = true ∨ leChars y x = true := by
  intro x
  induction x with
  | nil => intro y; left; rfl
  | cons a as ih =>
    intro y
    cases y with
    | nil => right; rfl
    | cons b bs =>
      rcases lt_trichotomy a b with h | h | h
      · left; simp [leChars, h]
      · subst h
        rcases ih bs with h2 | h2
        · left; simp [leChars, lt_irrefl, h2]
        · right; simp [leChars, lt_irrefl, h2]
      · right; simp [leChars, h]

/-- `leChars` is transitive. -/
theorem leChars_trans :
    ∀ x y z : List Char, leChars x y = true → leChars y z = true → leChars x z = true := by
  intro x
  induction x with
  | nil => intro y z _ _; rfl
  | cons a as ih =>
    intro y z hxy hyz
    cases y with
    | nil => simp [leChars] at hxy
    | cons b bs =>
      cases z with
      | nil => simp [leChars] at hyz
      | cons c cs =>
        simp only [leChars] at hxy hyz ⊢
        rcases lt_trichotomy a b with hab | hab | hab
        · rcases lt_trichotomy b c with hbc | hbc | hbc
          · simp [lt_trans hab hbc]
          · subst hbc; simp [hab]
          · simp [asymm hbc, hbc] at hyz
        · subst hab
          rcases lt_trichotomy a c with hac | hac | hac
          · simp [hac]
          · subst hac
            simp only [lt_irrefl, if_false] at hxy hyz ⊢
            exact ih _ _ hxy hyz
          · simp [asymm hac, hac] at hyz
        · simp [asymm hab, hab] at hxy

instance : IsTotal RawItem byRecent :=
  ⟨fun a b => by
    rcases leChars_total b.publishedAt.toList a.publishedAt.toList with h | h
    · exact Or.inl h
    · exact Or.inr h⟩

instance : IsTrans RawItem byRecent :=
  ⟨fun _ _ _ h1 h2 => leChars_trans _ _ _ h2 h1⟩

/-- A `byRecent`-sorted raw-item list maps to a video list that passes the
adjacent-pair descending check. -/
theorem videosSortedDesc_of_sorted :
    ∀ l : List RawItem, l.Sorted byRecent → videosSortedDesc (l.map mapVideo) = true := by
  intro l
  induction l with
  | nil => intro _; rfl
  | cons a t ih =>
    intro hs
    rw [List.sorted_cons] at hs
    cases t with
    | nil => rfl
    | cons b t2 =>
      have hab : byRecent a b := hs.1 b (by simp)
      have htail := ih hs.2
      simp only [List.map_cons, videosSortedDesc] at htail ⊢
      rw [Bool.and_eq_true]; exact ⟨hab, htail⟩

/-- The modelled listing capability returns `min 5 n` items for a channel
with `n` available items. -/
theorem listCapability_length (available : List RawItem) :
    (listCapability available).length = min maxResults available.length := by
  simp [listCapability, List.length_take, List.length_insertionSort]

/-- The modelled listing capability returns items ordered by `publishedAt`
descending. -/
theorem listCapability_sorted (available : List RawItem) :
    (listCapability available).Sorted byRecent :=
  List.Pairwise.sublist (List.take_sublist maxResults _)
    (List.sorted_insertionSort byRecent available)

/-- C1 counterexample: a concrete job whose channel resolution succeeds
(the handle search returns `UC123` / `Acme`); the handler emits the
`yt.channel.resolved` event, but the persisted job record still has
`channelID = none` and `channelName = none` — the resolution stage never
writes the resolved identity to the job store. -/
theorem resolveSuccess_doesNotPersistChannel :
    (resolveHandler
        { jobID := some "job_1_a", email := some "a@b.c", channel := some "@acme" }
        (some "key") (.ok [{ channelId := "UC123", title := "Acme" }]) (.ok [])
        (stSet [] "job: job_1_a"
          { jobID := some "job_1_a", channel := some "@acme", email := some "a@b.c",
            status := some "queued", createdAt := some "t0" })).events =
      [{ topic := "yt.channel.resolved",
         data := { jobID := some "job_1_a", channelID := some "UC123",
                   channelName := some "Acme", email := some "a@b.c" } }] ∧
    stGet (resolveHandler
        { jobID := some "job_1_a", email := some "a@b.c", channel := some "@acme" }
        (some "key") (.ok [{ channelId := "UC123", title := "Acme" }]) (.ok [])
        (stSet [] "job: job_1_a"
          { jobID := some "job_1_a", channel := some "@acme", email := some "a@b.c",
            status := some "queued", createdAt := some "t0" })).store "job: job_1_a" =
      some { jobID := some "job_1_a", channel := some "@acme", email := some "a@b.c",
             status := some "resolving channel", createdAt := some "t0",
             channelID := none, channelName := none } := by
  constructor <;> decide

/-- C2 failing input: the first submit variant stores the new job under
`"job:job_1700000000000_abc1234"`, while the resolution stage reads
`"job: job_1700000000000_abc1234"` (with a space); the two key strings
differ, so the resolution stage's read of the job it was woken for returns
`none` and its status write carries none of the fields the submit stage
persisted. -/
theorem submitResolve_keyMismatch :
    mkJobID 1700000000000 "abc1234" = "job_1700000000000_abc1234" ∧
    submitKeyV1 "job_1700000000000_abc1234" ≠ pipeKey "job_1700000000000_abc1234" ∧
    (stGet (submitHandler (some "@acme") (some "a@b.c") 1700000000000 "abc1234" "t0" []).store
        "job:job_1700000000000_abc1234").isSome = true ∧
    stGet (submitHandler (some "@acme") (some "a@b.c") 1700000000000 "abc1234" "t0" []).store
        "job: job_1700000000000_abc1234" = none ∧
    (resolveHandler
        { jobID := some "job_1700000000000_abc1234", channel := some "@acme",
          email := some "a@b.c" }
        (some "key") (.ok [{ channelId := "UC123", title := "Acme" }]) (.ok [])
        (submitHandler (some "@acme") (some "a@b.c") 1700000000000 "abc1234" "t0" []).store).writes =
      [("job: job_1700000000000_abc1234", { status := some "resolving channel" })] := by
  refine ⟨by decide, by decide, by decide, by decide, by decide⟩

/-- C7 counterexample: a concrete listing-stage invocation whose external
call returns zero items.  The persisted record ends with
`error = "no videos found"` — not the claimed `"No videos found for
channel"`, which is only the `error` field of the emitted
`yt.videos.error` event. -/
theorem listingZero_recordErrorDiffers :
    stGet (fetchHandler
        { jobID := some "job_1_a", email := some "a@b.c",
          channelID := some "UC123", channelName := some "Acme" }
        (some "key") (.ok [])
        (stSet [] "job: job_1_a"
          { jobID := some "job_1_a", channel := some "@acme", email := some "a@b.c",
            status := some "resolving channel", createdAt := some "t0" })).store "job: job_1_a" =
      some { jobID := some "job_1_a", channel := some "@acme", email := some "a@b.c",
             status := some "failed", error := some "no videos found",
             createdAt := some "t0" } ∧
    (some "no videos found" : Option String) ≠ some "No videos found for channel" ∧
    (fetchHandler
        { jobID := some "job_1_a", email := some "a@b.c",
          channelID := some "UC123", channelName := some "Acme" }
        (some "key") (.ok [])
        (stSet [] "job: job_1_a"
          { jobID := some "job_1_a", channel := some "@acme", email := some "a@b.c",
            status := some "resolving channel", createdAt := some "t0" })).events =
      [{ topic := "yt.videos.error",
         data := { jobID := some "job_1_a", email := some "a@b.c",
                   error := some "No videos found for channel" } }] := by
  refine ⟨by decide, by decide, by decide⟩

/-- C9 counterexample: a resolution-stage invocation whose payload has no
`jobID` (and no `channel`, so `channel.startsWith` throws after the status
update).  The failure is caught and silently dropped — no event is emitted
and no failure record is written — but the invocation did write to the job
store before the failure: the in-progress status update landed under the
key `"job: undefined"`. -/
theorem silentDrop_writesBeforeFailure :
    (resolveHandler { email := some "a@b.c" } (some "key") (.ok []) (.ok []) []).writes =
      [("job: undefined", { status := some "resolving channel" })] ∧
    (resolveHandler { email := some "a@b.c" } (some "key") (.ok []) (.ok []) []).events = [] ∧
    (resolveHandler { email := some "a@b.c" } (some "key") (.ok []) (.ok []) []).writes ≠ [] := by
  refine ⟨by decide, by decide, by decide⟩

/-- Writes performed by the resolution catch block: either a write already
performed before the failure, or the failure record — the re-read record
under the job key with only `status` and `error` overridden. -/
theorem resolveCatch_writes (jobID email : Option String) (msg : String) (s : Store)
    (ws : List (String × JobRecord)) (k : String) (r : JobRecord)
    (hmem : (k, r) ∈ (resolveCatch jobID email msg s ws).writes) :
    (k, r) ∈ ws ∨
      (k = pipeKey (jsString jobID) ∧
        r = { spreadOf (stGet s k) with status := some "failed", error := some msg }) := by
  unfold resolveCatch at hmem
  split at hmem
  · dsimp only at hmem
    rw [List.mem_append, List.mem_singleton] at hmem
    rcases hmem with h | h
    · exact Or.inl h
    · have hk : k = pipeKey (jsString jobID) := congrArg Prod.fst h
      have hr := congrArg Prod.snd h
      subst hk
      exact Or.inr ⟨rfl, hr⟩
  · exact Or.inl hmem

/-- Writes performed by the listing catch block (same shape as
`resolveCatch_writes`). -/
theorem fetchCatch_writes (jobID email : Option String) (msg : String) (s : Store)
    (ws : List (String × JobRecord)) (k : String) (r : JobRecord)
    (hmem : (k, r) ∈ (fetchCatch jobID email msg s ws).writes) :
    (k, r) ∈ ws ∨
      (k = pipeKey (jsString jobID) ∧
        r = { spreadOf (stGet s k) with status := some "failed", error := some msg }) := by
  unfold fetchCatch at hmem
  split at hmem
  · dsimp only at hmem
    rw [List.mem_append, List.mem_singleton] at hmem
    rcases hmem with h | h
    · exact Or.inl h
    · have hk : k = pipeKey (jsString jobID) := congrArg Prod.fst h
      have hr := congrArg Prod.snd h
      subst hk
      exact Or.inr ⟨rfl, hr⟩
  · exact Or.inl hmem

/-- A status-only overwrite preserves all other fields of the spread
record. -/
theorem preservedStatus (o : Option JobRecord) (st : Option String) :
    fieldsPreserved { spreadOf o with status := st } (spreadOf o) :=
  ⟨rfl, rfl, rfl, rfl, rfl, rfl⟩

/-- A status-and-error overwrite preserves all other fields of the spread
record. -/
theorem preservedStatusError (o : Option JobRecord) (st er : Option String) :
    fieldsPreserved { spreadOf o with status := st, error := er } (spreadOf o) :=
  ⟨rfl, rfl, rfl, rfl, rfl, rfl⟩

/-- A status-and-videos overwrite preserves all other fields of the spread
record. -/
theorem preservedStatusVideos (o : Option JobRecord) (st : Option String)
    (vs : Option (List Video)) :
    fieldsPreserved { spreadOf o with status := st, videos := vs } (spreadOf o) :=
  ⟨rfl, rfl, rfl, rfl, rfl, rfl⟩

/-- The failure record written by a catch block after the in-progress
status write still preserves the fields of the record initially stored
under the job key. -/
theorem preservedCatchAfter (s : Store) (key : String) (st st2 er2 : Option String) :
    fieldsPreserved
      { spreadOf (stGet (stSet s key { spreadOf (stGet s key) with status := st }) key) with
        status := st2, error := er2 }
      (spreadOf (stGet s key)) := by
  rw [stGet_stSet_self]
  exact ⟨rfl, rfl, rfl, rfl, rfl, rfl⟩

/-- C10: every job-store write performed by a resolution-stage or
listing-stage invocation agrees with the record stored under the written
key at the start of the invocation on every field other than `status`,
`error` and `videos` — in particular `jobID`, `channel`, `email`,
`createdAt`, `channelID` and `channelName` are carried through unchanged. -/
theorem stageWrites_preserveFields (ev : EventData) (apiKey : Option String)
    (primary fallback : Except String (List ChanItem))
    (listing : Except String (List RawItem)) (s : Store) (k : String) (r : JobRecord) :
    ((k, r) ∈ (resolveHandler ev apiKey primary fallback s).writes →
      fieldsPreserved r (spreadOf (stGet s k))) ∧
    ((k, r) ∈ (fetchHandler ev apiKey listing s).writes →
      fieldsPreserved r (spreadOf (stGet s k))) := by
  constructor
  · intro hmem
    unfold resolveHandler at hmem
    cases apiKey with
    | none =>
      rcases resolveCatch_writes _ _ _ _ _ _ _ hmem with h | ⟨hk, hr⟩
      · exact absurd h (List.not_mem_nil _)
      · subst hk; subst hr
        exact preservedStatusError _ _ _
    | some ak =>
      cases hch : ev.channel with
      | none =>
        rw [hch] at hmem
        dsimp only at hmem
        rcases resolveCatch_writes _ _ _ _ _ _ _ hmem with h | ⟨hk, hr⟩
        · rw [List.mem_singleton] at h
          have hk := congrArg Prod.fst h
          have hr := congrArg Prod.snd h
          dsimp only at hk hr
          subst hk; subst hr
          exact preservedStatus _ _
        · subst hk; subst hr
          exact preservedCatchAfter _ _ _ _ _
      | some ch =>
        rw [hch] at hmem
        dsimp only at hmem
        split at hmem
        · cases primary with
          | error msg =>
            dsimp only at hmem
            rcases resolveCatch_writes _ _ _ _ _ _ _ hmem with h | ⟨hk, hr⟩
            · rw [List.mem_singleton] at h
              have hk := congrArg Prod.fst h
              have hr := congrArg Prod.snd h
              dsimp only at hk hr
              subst hk; subst hr
              exact preservedStatus _ _
            · subst hk; subst hr
              exact preservedCatchAfter _ _ _ _ _
          | ok items =>
            cases items with
            | cons it rest =>
              dsimp only at hmem
              rw [List.mem_singleton] at hmem
              have hk := congrArg Prod.fst hmem
              have hr := congrArg Prod.snd hmem
              dsimp only at hk hr
              subst hk; subst hr
              exact preservedStatus _ _
            | nil =>
              cases fallback with
              | error msg =>
                dsimp only at hmem
                rcases resolveCatch_writes _ _ _ _ _ _ _ hmem with h | ⟨hk, hr⟩
                · rw [List.mem_singleton] at h
                  have hk := congrArg Prod.fst h
                  have hr := congrArg Prod.snd h
                  dsimp only at hk hr
                  subst hk; subst hr
                  exact preservedStatus _ _
                · subst hk; subst hr
                  exact preservedCatchAfter _ _ _ _ _
              | ok l =>
                unfold resolveNotFound at hmem
                dsimp only at hmem
                rw [List.mem_append, List.mem_singleton, List.mem_singleton] at hmem
                rcases hmem with h | h
                · have hk := congrArg Prod.fst h
                  have hr := congrArg Prod.snd h
                  dsimp only at hk hr
                  subst hk; subst hr
                  exact preservedStatus _ _
                · have hk := congrArg Prod.fst h
                  have hr := congrArg Prod.snd h
                  dsimp only at hk hr
                  subst hk; subst hr
                  exact preservedStatusError _ _ _
        · unfold resolveNotFound at hmem
          dsimp only at hmem
          rw [List.mem_append, List.mem_singleton, List.mem_singleton] at hmem
          rcases hmem with h | h
          · have hk := congrArg Prod.fst h
            have hr := congrArg Prod.snd h
            dsimp only at hk hr
            subst hk; subst hr
            exact preservedStatus _ _
          · have hk := congrArg Prod.fst h
            have hr := congrArg Prod.snd h
            dsimp only at hk hr
            subst hk; subst hr
            exact preservedStatusError _ _ _
  · intro hmem
    unfold fetchHandler at hmem
    cases apiKey with
    | none =>
      rcases fetchCatch_writes _ _ _ _ _ _ _ hmem with h | ⟨hk, hr⟩
      · exact absurd h (List.not_mem_nil _)
      · subst hk; subst hr
        exact preservedStatusError _ _ _
    | some ak =>
      cases listing with
      | error msg =>
        dsimp only at hmem
        rcases fetchCatch_writes _ _ _ _ _ _ _ hmem with h | ⟨hk, hr⟩
        · rw [List.mem_singleton] at h
          have hk := congrArg Prod.fst h
          have hr := congrArg Prod.snd h
          dsimp only at hk hr
          subst hk; subst hr
          exact preservedStatus _ _
        · subst hk; subst hr
          exact preservedCatchAfter _ _ _ _ _
      | ok items =>
        dsimp only at hmem
        split at hmem
        · dsimp only at hmem
          rw [List.mem_append, List.mem_singleton, List.mem_singleton] at hmem
          rcases hmem with h | h
          · have hk := congrArg Prod.fst h
            have hr := congrArg Prod.snd h
            dsimp only at hk hr
            subst hk; subst hr
            exact preservedStatus _ _
          · have hk := congrArg Prod.fst h
            have hr := congrArg Prod.snd h
            dsimp only at hk hr
            subst hk; subst hr
            exact preservedStatusError _ _ _
        · dsimp only at hmem
          rw [List.mem_append, List.mem_singleton, List.mem_singleton] at hmem
          rcases hmem with h | h
          · have hk := congrArg Prod.fst h
            have hr := congrArg Prod.snd h
            dsimp only at hk hr
            subst hk; subst hr
            exact preservedStatus _ _
          · have hk := congrArg Prod.fst h
            have hr := congrArg Prod.snd h
            dsimp only at hk hr
            subst hk; subst hr
            exact preservedStatusVideos _ _ _

/-- Full characterization of a successful submit invocation. -/
theorem submitHandlerWith_success (jobKey : String → String) (ch em : String)
    (now : Nat) (suffix createdAt : String) (s : Store)
    (hch : ch ≠ "") (hem : emailTest em = true) :
    submitHandlerWith jobKey (some ch) (some em) now suffix createdAt s =
      { resp := { status := 201, success := some true, jobID := some (mkJobID now suffix),
                  message := some "Job submitted successfully. You will get an email soon." },
        store := stSet s (jobKey (mkJobID now suffix))
          { jobID := some (mkJobID now suffix), channel := some ch, email := some em,
            status := some "queued", createdAt := some createdAt },
        writes := [(jobKey (mkJobID now suffix),
          { jobID := some (mkJobID now suffix), channel := some ch, email := some em,
            status := some "queued", createdAt := some createdAt })],
        events := [{ topic := "yt.submit",
                     data := { jobID := some (mkJobID now suffix), channel := some ch,
                               email := some em } }] } := by
  have h1 : (ch == "") = false := by
    simp [hch]
  have h2 : (em == "") = false := by
    simp [emailTest_ne_empty em hem]
  unfold submitHandlerWith
  dsimp only
  rw [h1, h2]
  simp [hem]

/-- Statuses and resolved-event filter of the resolution catch block when
job identity is known. -/
theorem resolveCatch_out (jobID email : Option String) (msg : String) (s : Store)
    (ws : List (String × JobRecord))
    (h : (jsTruthy jobID && jsTruthy email) = true) :
    writeStatuses (resolveCatch jobID email msg s ws).writes =
      writeStatuses ws ++ ["failed"] ∧
    (resolveCatch jobID email msg s ws).events.filter
      (fun e => e.topic == "yt.channel.resolved") = [] := by
  have hne : (("yt.channel.error" : String) == "yt.channel.resolved") = false := by decide
  unfold resolveCatch
  rw [if_pos h]
  constructor
  · simp [writeStatuses, List.filterMap_append]
  · simp [List.filter_cons, hne]

/-- Statuses of the listing catch block when job identity is known. -/
theorem fetchCatch_out (jobID email : Option String) (msg : String) (s : Store)
    (ws : List (String × JobRecord))
    (h : (jsTruthy jobID && jsTruthy email) = true) :
    writeStatuses (fetchCatch jobID email msg s ws).writes =
      writeStatuses ws ++ ["failed"] := by
  unfold fetchCatch
  rw [if_pos h]
  simp [writeStatuses, List.filterMap_append]

/-- Equation for the resolution catch block when job identity is known. -/
theorem resolveCatch_eq (jobID email : Option String) (msg : String) (s : Store)
    (ws : List (String × JobRecord))
    (h : (jsTruthy jobID && jsTruthy email) = true) :
    resolveCatch jobID email msg s ws =
      { store := stSet s (pipeKey (jsString jobID))
          { spreadOf (stGet s (pipeKey (jsString jobID))) with
            status := some "failed", error := some msg },
        writes := ws ++ [(pipeKey (jsString jobID),
          { spreadOf (stGet s (pipeKey (jsString jobID))) with
            status := some "failed", error := some msg })],
        events := [{ topic := "yt.channel.error",
                     data := { jobID := jobID, email := email,
                               error := some ("Failed to resolve channel: " ++ msg) } }] } := by
  unfold resolveCatch
  rw [if_pos h]

/-- Equation for the resolution catch block when job identity is missing:
log-only silent drop. -/
theorem resolveCatch_silent (jobID email : Option String) (msg : String) (s : Store)
    (ws : List (String × JobRecord))
    (h : (jsTruthy jobID && jsTruthy email) = false) :
    resolveCatch jobID email msg s ws = { store := s, writes := ws, events := [] } := by
  unfold resolveCatch
  rw [if_neg (by simp [h])]

/-- Equation for the listing catch block when job identity is known. -/
theorem fetchCatch_eq (jobID email : Option String) (msg : String) (s : Store)
    (ws : List (String × JobRecord))
    (h : (jsTruthy jobID && jsTruthy email) = true) :
    fetchCatch jobID email msg s ws =
      { store := stSet s (pipeKey (jsString jobID))
          { spreadOf (stGet s (pipeKey (jsString jobID))) with
            status := some "failed", error := some msg },
        writes := ws ++ [(pipeKey (jsString jobID),
          { spreadOf (stGet s (pipeKey (jsString jobID))) with
            status := some "failed", error := some msg })],
        events := [{ topic := "yt.videos.error",
                     data := { jobID := jobID, email := email,
                               error := some ("Failed to fetch videos: " ++ msg) } }] } := by
  unfold fetchCatch
  rw [if_pos h]

/-- Equation for the listing catch block when job identity is missing:
log-only silent drop. -/
theorem fetchCatch_silent (jobID email : Option String) (msg : String) (s : Store)
    (ws : List (String × JobRecord))
    (h : (jsTruthy jobID && jsTruthy email) = false) :
    fetchCatch jobID email msg s ws = { store := s, writes := ws, events := [] } := by
  unfold fetchCatch
  rw [if_neg (by simp [h])]

/-- Outcomes of one resolution-stage invocation with known job identity:
either only the failure record was written ("failed"), or the in-progress
status then the failure record, or only the in-progress status with the
resolved event emitted. -/
theorem resolveRun_cases (ev : EventData) (apiKey : Option String)
    (primary fallback : Except String (List ChanItem)) (s : Store)
    (hj : jsTruthy ev.jobID = true) (he : jsTruthy ev.email = true) :
    (writeStatuses (resolveHandler ev apiKey primary fallback s).writes = ["failed"] ∧
      (resolveHandler ev apiKey primary fallback s).events.filter
        (fun e => e.topic == "yt.channel.resolved") = []) ∨
    (writeStatuses (resolveHandler ev apiKey primary fallback s).writes =
        ["resolving channel", "failed"] ∧
      (resolveHandler ev apiKey primary fallback s).events.filter
        (fun e => e.topic == "yt.channel.resolved") = []) ∨
    (writeStatuses (resolveHandler ev apiKey primary fallback s).writes =
        ["resolving channel"] ∧
      ∃ cid cname,
        (resolveHandler ev apiKey primary fallback s).events.filter
          (fun e => e.topic == "yt.channel.resolved") =
          [{ topic := "yt.channel.resolved",
             data := { jobID := ev.jobID, channelID := some cid,
                       channelName := some cname, email := ev.email } }]) := by
  have hb : (jsTruthy ev.jobID && jsTruthy ev.email) = true := by rw [hj, he]; rfl
  have hne : (("yt.channel.error" : String) == "yt.channel.resolved") = false := by decide
  have hyes : (("yt.channel.resolved" : String) == "yt.channel.resolved") = true := by decide
  unfold resolveHandler
  cases apiKey with
  | none =>
    dsimp only
    rw [resolveCatch_eq _ _ _ _ _ hb]
    left
    exact ⟨by simp [writeStatuses], by simp [List.filter_cons, hne]⟩
  | some ak =>
    dsimp only
    cases hch : ev.channel with
    | none =>
      dsimp only
      rw [resolveCatch_eq _ _ _ _ _ hb]
      right; left
      constructor
      · simp [writeStatuses, List.filterMap_append]
      · simp [List.filter_cons, hne]
    | some ch =>
      dsimp only
      cases hat : startsWithAt ch with
      | false =>
        rw [if_neg (by simp)]
        unfold resolveNotFound
        right; left
        constructor
        · simp [writeStatuses, List.filterMap_append]
        · simp [List.filter_cons, hne]
      | true =>
        rw [if_pos rfl]
        cases primary with
        | error msg =>
          dsimp only
          rw [resolveCatch_eq _ _ _ _ _ hb]
          right; left
          constructor
          · simp [writeStatuses, List.filterMap_append]
          · simp [List.filter_cons, hne]
        | ok items =>
          dsimp only
          cases items with
          | nil =>
            dsimp only
            cases fallback with
            | error msg =>
              dsimp only
              rw [resolveCatch_eq _ _ _ _ _ hb]
              right; left
              constructor
              · simp [writeStatuses, List.filterMap_append]
              · simp [List.filter_cons, hne]
            | ok l =>
              dsimp only
              unfold resolveNotFound
              right; left
              constructor
              · simp [writeStatuses, List.filterMap_append]
              · simp [List.filter_cons, hne]
          | cons it rest =>
            dsimp only
            right; right
            refine ⟨by simp [writeStatuses], it.channelId, it.title, ?_⟩
            simp [List.filter_cons, hyes]

/-- Outcomes of one listing-stage invocation with known job identity. -/
theorem fetchRun_statuses (ev : EventData) (apiKey : Option String)
    (listing : Except String (List RawItem)) (s : Store)
    (hj : jsTruthy ev.jobID = true) (he : jsTruthy ev.email = true) :
    writeStatuses (fetchHandler ev apiKey listing s).writes = ["failed"] ∨
    writeStatuses (fetchHandler ev apiKey listing s).writes =
      ["fetching videos", "failed"] ∨
    writeStatuses (fetchHandler ev apiKey listing s).writes =
      ["fetching videos", "videos fetched"] := by
  have hb : (jsTruthy ev.jobID && jsTruthy ev.email) = true := by rw [hj, he]; rfl
  unfold fetchHandler
  cases apiKey with
  | none =>
    dsimp only
    rw [fetchCatch_eq _ _ _ _ _ hb]
    left
    simp [writeStatuses]
  | some ak =>
    dsimp only
    cases listing with
    | error msg =>
      dsimp only
      rw [fetchCatch_eq _ _ _ _ _ hb]
      right; left
      simp [writeStatuses, List.filterMap_append]
    | ok items =>
      dsimp only
      cases hie : items.isEmpty with
      | true =>
        rw [if_pos rfl]
        right; left
        simp [writeStatuses, List.filterMap_append]
      | false =>
        rw [if_neg (by simp)]
        right; right
        simp [writeStatuses, List.filterMap_append]

/-- Appending write sequences appends their status sequences. -/
theorem writeStatuses_append (a b : List (String × JobRecord)) :
    writeStatuses (a ++ b) = writeStatuses a ++ writeStatuses b := by
  simp [writeStatuses, List.filterMap_append]

/-- C3: along one pipeline run on a valid submission, every status stored
into the job store is one of the five statuses of the specification's
enumeration (under the code-to-spec renaming `specStatusName`), and the
sequence of stored statuses never moves backward in pipeline order. -/
theorem statusMachine (jobKey : String → String) (ch em : String) (now : Nat)
    (suffix createdAt : String) (apiKey1 : Option String)
    (primary fallback : Except String (List ChanItem)) (apiKey2 : Option String)
    (listing : Except String (List RawItem))
    (hch : ch ≠ "") (hem : emailTest em = true) :
    (∀ st ∈ writeStatuses (runPipeline jobKey (some ch) (some em) now suffix createdAt
        apiKey1 primary fallback apiKey2 listing).writes,
      (specStatusName st).isSome = true) ∧
    ranksMono (writeStatuses (runPipeline jobKey (some ch) (some em) now suffix createdAt
        apiKey1 primary fallback apiKey2 listing).writes) = true := by
  have hj : jsTruthy (some (mkJobID now suffix)) = true := by
    have h := mkJobID_ne_empty now suffix
    simp [jsTruthy, h]
  have he : jsTruthy (some em) = true := by
    have h := emailTest_ne_empty em hem
    simp [jsTruthy, h]
  unfold runPipeline
  rw [submitHandlerWith_success jobKey ch em now suffix createdAt [] hch hem]
  dsimp only
  rcases resolveRun_cases
      { jobID := some (mkJobID now suffix), channel := some ch, email := some em }
      apiKey1 primary fallback
      (stSet [] (jobKey (mkJobID now suffix))
        { jobID := some (mkJobID now suffix), channel := some ch, email := some em,
          status := some "queued", createdAt := some createdAt })
      hj he with ⟨h1, h2⟩ | ⟨h1, h2⟩ | ⟨h1, cid, cname, h2⟩
  · rw [h2]
    dsimp only
    rw [writeStatuses_append, h1]
    constructor
    · simp [writeStatuses]
      decide
    · simp [writeStatuses, ranksMono, statusRank]
  · rw [h2]
    dsimp only
    rw [writeStatuses_append, h1]
    constructor
    · simp [writeStatuses]
      decide
    · simp [writeStatuses, ranksMono, statusRank]
  · rw [h2]
    dsimp only
    rcases fetchRun_statuses
        { jobID := ({ jobID := some (mkJobID now suffix), channel := some ch,
                      email := some em } : EventData).jobID,
          channelID := some cid, channelName := some cname,
          email := ({ jobID := some (mkJobID now suffix), channel := some ch,
                      email := some em } : EventData).email }
        apiKey2 listing
        (resolveHandler
          { jobID := some (mkJobID now suffix), channel := some ch, email := some em }
          apiKey1 primary fallback
          (stSet [] (jobKey (mkJobID now suffix))
            { jobID := some (mkJobID now suffix), channel := some ch, email := some em,
              status := some "queued", createdAt := some createdAt })).store
        hj he with hf | hf | hf <;>
      rw [writeStatuses_append, writeStatuses_append, h1, hf] <;>
      constructor <;>
      simp [writeStatuses, ranksMono, statusRank] <;>
      decide

/-- C4: a submission with a nonempty channel and a regex-valid email (under
either submit variant's key builder) writes exactly one new job record with
`status = "queued"`, whose `jobID` matches `job_<digits>_<alphanumeric>`,
emits exactly one `yt.submit` event carrying `{jobID, channel, email}`, and
returns `201` with `success: true` and that `jobID`.  The hypotheses on
`suffix` model `Math.random().toString(36).substring(2, 9)`: a nonempty
string of base-36 characters. -/
theorem submitValid_createsQueuedJob (jobKey : String → String) (ch em : String)
    (now : Nat) (suffix createdAt : String) (s : Store)
    (hch : ch ≠ "") (hem : emailTest em = true)
    (hs1 : suffix ≠ "") (hs2 : suffix.toList.all Char.isAlphanum = true) :
    (submitHandlerWith jobKey (some ch) (some em) now suffix createdAt s).writes =
      [(jobKey (mkJobID now suffix),
        { jobID := some (mkJobID now suffix), channel := some ch, email := some em,
          status := some "queued", createdAt := some createdAt })] ∧
    jobIDShape (mkJobID now suffix) = true ∧
    (submitHandlerWith jobKey (some ch) (some em) now suffix createdAt s).events =
      [{ topic := "yt.submit",
         data := { jobID := some (mkJobID now suffix), channel := some ch,
                   email := some em } }] ∧
    (submitHandlerWith jobKey (some ch) (some em) now suffix createdAt s).resp.status = 201 ∧
    (submitHandlerWith jobKey (some ch) (some em) now suffix createdAt s).resp.success =
      some true ∧
    (submitHandlerWith jobKey (some ch) (some em) now suffix createdAt s).resp.jobID =
      some (mkJobID now suffix) := by
  rw [submitHandlerWith_success jobKey ch em now suffix createdAt s hch hem]
  exact ⟨rfl, jobIDShape_mkJobID now suffix hs1 hs2, rfl, rfl, rfl, rfl⟩

/-- C5: a submission with a missing channel, a missing email, or an email
failing the regex (under either submit variant) gets a `400` response,
writes nothing to the job store and emits no event. -/
theorem submitInvalid_rejects (jobKey : String → String) (channel email : Option String)
    (now : Nat) (suffix createdAt : String) (s : Store)
    (h : channel = none ∨ email = none ∨
      (∃ em, email = some em ∧ emailTest em = false)) :
    (submitHandlerWith jobKey channel email now suffix createdAt s).resp.status = 400 ∧
    (submitHandlerWith jobKey channel email now suffix createdAt s).writes = [] ∧
    (submitHandlerWith jobKey channel email now suffix createdAt s).events = [] ∧
    (submitHandlerWith jobKey channel email now suffix createdAt s).store = s := by
  unfold submitHandlerWith
  rcases h with h | h | ⟨em, hee, hf⟩
  · subst h
    cases email <;> exact ⟨rfl, rfl, rfl, rfl⟩
  · subst h
    cases channel <;> exact ⟨rfl, rfl, rfl, rfl⟩
  · subst hee
    cases channel with
    | none => exact ⟨rfl, rfl, rfl, rfl⟩
    | some ch =>
      dsimp only
      cases hcc : (ch == "" || em == "") with
      | true =>
        rw [if_pos rfl]
        exact ⟨rfl, rfl, rfl, rfl⟩
      | false =>
        rw [if_neg (by simp)]
        rw [if_pos (by rw [hf]; rfl)]
        exact ⟨rfl, rfl, rfl, rfl⟩

/-- C6: a handle channel whose primary search returns zero matches ends the
job `status = "failed"`, `error = "Channel not found"` and emits a
`yt.channel.error` event whose payload is exactly `{jobID, email}` (no
`error` field) — whatever list the raw-text fallback search returns, its
result is never applied: the stored record keeps its previous `channelID`
and `channelName` (they are spread from the record read at the start). -/
theorem handleNotFound_exactErrorPayload (ev : EventData) (j e ch ak : String)
    (l : List ChanItem) (s : Store)
    (hjid : ev.jobID = some j) (hemail : ev.email = some e)
    (hchan : ev.channel = some ch) (hat : startsWithAt ch = true) :
    (resolveHandler ev (some ak) (.ok []) (.ok l) s).events =
      [{ topic := "yt.channel.error",
         data := { jobID := some j, email := some e } }] ∧
    stGet (resolveHandler ev (some ak) (.ok []) (.ok l) s).store (pipeKey j) =
      some { spreadOf (stGet s (pipeKey j)) with
             status := some "failed", error := some "Channel not found" } := by
  unfold resolveHandler resolveNotFound
  rw [hchan, hjid, hemail]
  dsimp only
  rw [if_pos hat]
  exact ⟨rfl, stGet_stSet_self _ _ _⟩

/-- C1 amended: on a successful handle resolution the stage emits the
`yt.channel.resolved` event carrying `{jobID, channelID, channelName,
email}` from the first search result, but its only store write is the
in-progress status record: `channelID` and `channelName` are never written
to the persisted job record (the stored record keeps the spread of what was
there before, with only `status` set to `"resolving channel"`). -/
theorem resolveSuccess_amended (ev : EventData) (ak ch : String) (item : ChanItem)
    (rest : List ChanItem) (fallback : Except String (List ChanItem)) (s : Store)
    (hchan : ev.channel = some ch) (hat : startsWithAt ch = true) :
    (resolveHandler ev (some ak) (.ok (item :: rest)) fallback s).events =
      [{ topic := "yt.channel.resolved",
         data := { jobID := ev.jobID, channelID := some item.channelId,
                   channelName := some item.title, email := ev.email } }] ∧
    (resolveHandler ev (some ak) (.ok (item :: rest)) fallback s).writes =
      [(pipeKey (jsString ev.jobID),
        { spreadOf (stGet s (pipeKey (jsString ev.jobID))) with
          status := some "resolving channel" })] ∧
    stGet (resolveHandler ev (some ak) (.ok (item :: rest)) fallback s).store
        (pipeKey (jsString ev.jobID)) =
      some { spreadOf (stGet s (pipeKey (jsString ev.jobID))) with
             status := some "resolving channel" } := by
  unfold resolveHandler
  rw [hchan]
  dsimp only
  rw [if_pos hat]
  exact ⟨rfl, rfl, stGet_stSet_self _ _ _⟩

/-- C7 amended: when the external listing call returns zero items, the
persisted record ends `status = "failed"` with `error = "no videos found"`,
while the emitted `yt.videos.error` event carries `{jobID, email,
error = "No videos found for channel"}`. -/
theorem listingZero_amended (ev : EventData) (j e ak : String) (s : Store)
    (hjid : ev.jobID = some j) (hemail : ev.email = some e) :
    stGet (fetchHandler ev (some ak) (.ok []) s).store (pipeKey j) =
      some { spreadOf (stGet s (pipeKey j)) with
             status := some "failed", error := some "no videos found" } ∧
    (fetchHandler ev (some ak) (.ok []) s).events =
      [{ topic := "yt.videos.error",
         data := { jobID := some j, email := some e,
                   error := some "No videos found for channel" } }] := by
  unfold fetchHandler
  dsimp only
  rw [if_pos List.isEmpty_nil]
  dsimp only
  constructor
  · rw [hjid]
    exact stGet_stSet_self _ _ _
  · rw [hjid, hemail]

/-- C8: with the external listing capability modelled from the request URL
(`maxResults=5&order=date`: the 5 most recent of the available items,
ordered by `publishedAt` descending), a channel with 7 available items ends
the job `status = "videos fetched"` (the code's name for the
specification's `items-fetched`) with exactly 5 stored videos ordered by
`publishedAt` descending; and in general, when a record written by the
listing stage carries a `videos` field that the initial record did not
already have, its length is between 1 and 5. -/
theorem listingStoresCappedSorted (ev : EventData) (j ak : String)
    (available avail2 : List RawItem) (s s2 : Store)
    (hjid : ev.jobID = some j) (h7 : available.length = 7)
    (hinit : (spreadOf (stGet s2 (pipeKey (jsString ev.jobID)))).videos = none) :
    (stGet (fetchHandler ev (some ak) (.ok (listCapability available)) s).store
        (pipeKey j) =
      some { spreadOf (stGet s (pipeKey j)) with
             status := some "videos fetched",
             videos := some ((listCapability available).map mapVideo) } ∧
     ((listCapability available).map mapVideo).length = 5 ∧
     videosSortedDesc ((listCapability available).map mapVideo) = true) ∧
    (∀ p ∈ (fetchHandler ev (some ak) (.ok (listCapability avail2)) s2).writes,
      ∀ vs, p.2.videos = some vs → 1 ≤ vs.length ∧ vs.length ≤ 5) := by
  have hlen : (listCapability available).length = 5 := by
    rw [listCapability_length, h7]
    decide
  have hne : (listCapability available).isEmpty = false := by
    cases hl : listCapability available with
    | nil => rw [hl] at hlen; simp at hlen
    | cons a t => rfl
  constructor
  · unfold fetchHandler
    dsimp only
    rw [if_neg (by rw [hne]; simp)]
    refine ⟨?_, ?_, ?_⟩
    · rw [hjid]
      exact stGet_stSet_self _ _ _
    · rw [List.length_map]
      exact hlen
    · exact videosSortedDesc_of_sorted _ (listCapability_sorted available)
  · intro p hp vs hv
    unfold fetchHandler at hp
    dsimp only at hp
    cases hie : (listCapability avail2).isEmpty with
    | true =>
      rw [hie] at hp
      rw [if_pos rfl] at hp
      dsimp only at hp
      rw [List.mem_append, List.mem_singleton, List.mem_singleton] at hp
      rcases hp with hp | hp <;>
        · subst hp
          dsimp only at hv
          rw [hinit] at hv
          exact absurd hv (by simp)
    | false =>
      rw [hie] at hp
      rw [if_neg (by simp)] at hp
      dsimp only at hp
      rw [List.mem_append, List.mem_singleton, List.mem_singleton] at hp
      have h1 : listCapability avail2 ≠ [] := by
        intro hnil
        rw [hnil] at hie
        simp at hie
      have hp1 : 1 ≤ (listCapability avail2).length := List.length_pos.mpr h1
      have hp5 : (listCapability avail2).length ≤ 5 := by
        rw [listCapability_length]
        exact min_le_left _ _
      rcases hp with hp | hp
      · subst hp
        dsimp only at hv
        rw [hinit] at hv
        exact absurd hv (by simp)
      · subst hp
        dsimp only at hv
        injection hv with hv2
        subst hv2
        rw [List.length_map]
        exact ⟨hp1, hp5⟩

/-- C9 amended: when a failure is thrown in the resolution or listing stage
and the payload's `jobID` or `email` is missing (falsy), the handler stops
after logging: it emits no event and performs no store write after the
failure — no failure record is ever written; the only write that can be
present is the in-progress status update made before the failure. -/
theorem silentDrop_amended (ev : EventData) (apiKey : Option String)
    (primary fallback : Except String (List ChanItem))
    (listing : Except String (List RawItem)) (s : Store)
    (hid : (jsTruthy ev.jobID && jsTruthy ev.email) = false) :
    ((apiKey = none ∨ ev.channel = none ∨
      (∃ c msg, ev.channel = some c ∧ startsWithAt c = true ∧ primary = .error msg) ∨
      (∃ c msg, ev.channel = some c ∧ startsWithAt c = true ∧ primary = .ok [] ∧
        fallback = .error msg)) →
      ((resolveHandler ev apiKey primary fallback s).events = [] ∧
       ∀ p ∈ (resolveHandler ev apiKey primary fallback s).writes,
         p.2.status = some "resolving channel")) ∧
    ((apiKey = none ∨ (∃ msg, listing = .error msg)) →
      ((fetchHandler ev apiKey listing s).events = [] ∧
       ∀ p ∈ (fetchHandler ev apiKey listing s).writes,
         p.2.status = some "fetching videos")) := by
  constructor
  · intro hfail
    rcases hfail with h | h | ⟨c, msg, hc, hat, hp⟩ | ⟨c, msg, hc, hat, hp, hf⟩
    · subst h
      unfold resolveHandler
      dsimp only
      rw [resolveCatch_silent _ _ _ _ _ hid]
      exact ⟨rfl, by simp⟩
    · cases apiKey with
      | none =>
        unfold resolveHandler
        dsimp only
        rw [resolveCatch_silent _ _ _ _ _ hid]
        exact ⟨rfl, by simp⟩
      | some ak =>
        unfold resolveHandler
        rw [h]
        dsimp only
        rw [resolveCatch_silent _ _ _ _ _ hid]
        refine ⟨rfl, ?_⟩
        intro p hp2
        rw [List.mem_singleton] at hp2
        subst hp2
        rfl
    · cases apiKey with
      | none =>
        unfold resolveHandler
        dsimp only
        rw [resolveCatch_silent _ _ _ _ _ hid]
        exact ⟨rfl, by simp⟩
      | some ak =>
        subst hp
        unfold resolveHandler
        rw [hc]
        dsimp only
        rw [if_pos hat]
        rw [resolveCatch_silent _ _ _ _ _ hid]
        refine ⟨rfl, ?_⟩
        intro p hp2
        rw [List.mem_singleton] at hp2
        subst hp2
        rfl
    · cases apiKey with
      | none =>
        unfold resolveHandler
        dsimp only
        rw [resolveCatch_silent _ _ _ _ _ hid]
        exact ⟨rfl, by simp⟩
      | some ak =>
        subst hp
        subst hf
        unfold resolveHandler
        rw [hc]
        dsimp only
        rw [if_pos hat]
        rw [resolveCatch_silent _ _ _ _ _ hid]
        refine ⟨rfl, ?_⟩
        intro p hp2
        rw [List.mem_singleton] at hp2
        subst hp2
        rfl
  · intro hfail
    rcases hfail with h | ⟨msg, h⟩
    · subst h
      unfold fetchHandler
      dsimp only
      rw [fetchCatch_silent _ _ _ _ _ hid]
      exact ⟨rfl, by simp⟩
    · cases apiKey with
      | none =>
        unfold fetchHandler
        dsimp only
        rw [fetchCatch_silent _ _ _ _ _ hid]
        exact ⟨rfl, by simp⟩
      | some ak =>
        subst h
        unfold fetchHandler
        dsimp only
        rw [fetchCatch_silent _ _ _ _ _ hid]
        refine ⟨rfl, ?_⟩
        intro p hp2
        rw [List.mem_singleton] at hp2
        subst hp2
        rfl

/-- Witness for `statusMachine` at a concrete valid submission. -/
theorem statusMachine_witness :
    ("@acme" : String) ≠ "" ∧ emailTest "a@b.c" = true ∧
    ranksMono (writeStatuses (runPipeline submitKeyV1 (some "@acme") (some "a@b.c")
      1700000000000 "abc1234" "t0" (some "k")
      (.ok [{ channelId := "UC123", title := "Acme" }]) (.ok []) (some "k")
      (.ok [{ videoId := "v1", title := "T", publishedAt := "2024-01-01",
              thumbnailUrl := "u" }])).writes) = true :=
  ⟨by decide, by decide,
   (statusMachine submitKeyV1 "@acme" "a@b.c" 1700000000000 "abc1234" "t0" (some "k")
      (.ok [{ channelId := "UC123", title := "Acme" }]) (.ok []) (some "k")
      (.ok [{ videoId := "v1", title := "T", publishedAt := "2024-01-01",
              thumbnailUrl := "u" }])
      (by decide) (by decide)).2⟩

/-- Witness for `submitValid_createsQueuedJob` at a concrete submission. -/
theorem submitValid_witness :
    ("@acme" : String) ≠ "" ∧ emailTest "a@b.c" = true ∧ ("abc1234" : String) ≠ "" ∧
    "abc1234".toList.all Char.isAlphanum = true ∧
    (submitHandlerWith submitKeyV1 (some "@acme") (some "a@b.c") 1700000000000 "abc1234"
      "t0" []).resp.status = 201 ∧
    jobIDShape (mkJobID 1700000000000 "abc1234") = true :=
  ⟨by decide, by decide, by decide, by decide,
   (submitValid_createsQueuedJob submitKeyV1 "@acme" "a@b.c" 1700000000000 "abc1234" "t0" []
      (by decide) (by decide) (by decide) (by decide)).2.2.2.1,
   (submitValid_createsQueuedJob submitKeyV1 "@acme" "a@b.c" 1700000000000 "abc1234" "t0" []
      (by decide) (by decide) (by decide) (by decide)).2.1⟩

/-- Witness for `submitInvalid_rejects` at a concrete missing-channel
submission. -/
theorem submitInvalid_witness :
    (submitHandlerWith submitKeyV1 none (some "a@b.c") 1700000000000 "abc1234" "t0"
      []).resp.status = 400 ∧
    (submitHandlerWith submitKeyV1 none (some "a@b.c") 1700000000000 "abc1234" "t0"
      []).writes = [] :=
  ⟨(submitInvalid_rejects submitKeyV1 none (some "a@b.c") 1700000000000 "abc1234" "t0" []
      (Or.inl rfl)).1,
   (submitInvalid_rejects submitKeyV1 none (some "a@b.c") 1700000000000 "abc1234" "t0" []
      (Or.inl rfl)).2.1⟩

/-- Witness for `handleNotFound_exactErrorPayload` at a concrete job. -/
theorem handleNotFound_witness :
    startsWithAt "@acme" = true ∧
    (resolveHandler { jobID := some "j1", email := some "a@b.c", channel := some "@acme" }
        (some "k") (.ok []) (.ok [{ channelId := "UCX", title := "X" }]) []).events =
      [{ topic := "yt.channel.error",
         data := { jobID := some "j1", email := some "a@b.c" } }] :=
  ⟨by decide,
   (handleNotFound_exactErrorPayload
      { jobID := some "j1", email := some "a@b.c", channel := some "@acme" }
      "j1" "a@b.c" "@acme" "k" [{ channelId := "UCX", title := "X" }] []
      rfl rfl rfl (by decide)).1⟩

/-- Witness for `resolveSuccess_amended` at a concrete job. -/
theorem resolveSuccess_amended_witness :
    startsWithAt "@acme" = true ∧
    (resolveHandler { jobID := some "j1", email := some "a@b.c", channel := some "@acme" }
        (some "k") (.ok [{ channelId := "UC123", title := "Acme" }]) (.ok []) []).events =
      [{ topic := "yt.channel.resolved",
         data := { jobID := some "j1", channelID := some "UC123",
                   channelName := some "Acme", email := some "a@b.c" } }] :=
  ⟨by decide,
   (resolveSuccess_amended
      { jobID := some "j1", email := some "a@b.c", channel := some "@acme" }
      "k" "@acme" { channelId := "UC123", title := "Acme" } [] (.ok []) []
      rfl (by decide)).1⟩

/-- Witness for `listingZero_amended` at a concrete job. -/
theorem listingZero_amended_witness :
    (fetchHandler { jobID := some "j1", email := some "a@b.c", channelID := some "UC123" }
        (some "k") (.ok []) []).events =
      [{ topic := "yt.videos.error",
         data := { jobID := some "j1", email := some "a@b.c",
                   error := some "No videos found for channel" } }] :=
  (listingZero_amended
    { jobID := some "j1", email := some "a@b.c", channelID := some "UC123" }
    "j1" "a@b.c" "k" [] rfl rfl).2

/-- Witness for `listingStoresCappedSorted` at a channel with 7 available
items. -/
theorem listingStoresCappedSorted_witness :
    ([{ videoId := "v1", title := "T1", publishedAt := "2024-01-01", thumbnailUrl := "u1" },
      { videoId := "v2", title := "T2", publishedAt := "2024-01-05", thumbnailUrl := "u2" },
      { videoId := "v3", title := "T3", publishedAt := "2024-01-03", thumbnailUrl := "u3" },
      { videoId := "v4", title := "T4", publishedAt := "2024-01-07", thumbnailUrl := "u4" },
      { videoId := "v5", title := "T5", publishedAt := "2024-01-02", thumbnailUrl := "u5" },
      { videoId := "v6", title := "T6", publishedAt := "2024-01-06", thumbnailUrl := "u6" },
      { videoId := "v7", title := "T7", publishedAt := "2024-01-04", thumbnailUrl := "u7" }] :
        List RawItem).length = 7 ∧
    ((listCapability
      [{ videoId := "v1", title := "T1", publishedAt := "2024-01-01", thumbnailUrl := "u1" },
       { videoId := "v2", title := "T2", publishedAt := "2024-01-05", thumbnailUrl := "u2" },
       { videoId := "v3", title := "T3", publishedAt := "2024-01-03", thumbnailUrl := "u3" },
       { videoId := "v4", title := "T4", publishedAt := "2024-01-07", thumbnailUrl := "u4" },
       { videoId := "v5", title := "T5", publishedAt := "2024-01-02", thumbnailUrl := "u5" },
       { videoId := "v6", title := "T6", publishedAt := "2024-01-06", thumbnailUrl := "u6" },
       { videoId := "v7", title := "T7", publishedAt := "2024-01-04", thumbnailUrl := "u7" }]).map
      mapVideo).length = 5 ∧
    videosSortedDesc ((listCapability
      [{ videoId := "v1", title := "T1", publishedAt := "2024-01-01", thumbnailUrl := "u1" },
       { videoId := "v2", title := "T2", publishedAt := "2024-01-05", thumbnailUrl := "u2" },
       { videoId := "v3", title := "T3", publishedAt := "2024-01-03", thumbnailUrl := "u3" },
       { videoId := "v4", title := "T4", publishedAt := "2024-01-07", thumbnailUrl := "u4" },
       { videoId := "v5", title := "T5", publishedAt := "2024-01-02", thumbnailUrl := "u5" },
       { videoId := "v6", title := "T6", publishedAt := "2024-01-06", thumbnailUrl := "u6" },
       { videoId := "v7", title := "T7", publishedAt := "2024-01-04", thumbnailUrl := "u7" }]).map
      mapVideo) = true :=
  ⟨by decide,
   (listingStoresCappedSorted { jobID := some "j1", email := some "a@b.c" } "j1" "k"
      [{ videoId := "v1", title := "T1", publishedAt := "2024-01-01", thumbnailUrl := "u1" },
       { videoId := "v2", title := "T2", publishedAt := "2024-01-05", thumbnailUrl := "u2" },
       { videoId := "v3", title := "T3", publishedAt := "2024-01-03", thumbnailUrl := "u3" },
       { videoId := "v4", title := "T4", publishedAt := "2024-01-07", thumbnailUrl := "u4" },
       { videoId := "v5", title := "T5", publishedAt := "2024-01-02", thumbnailUrl := "u5" },
       { videoId := "v6", title := "T6", publishedAt := "2024-01-06", thumbnailUrl := "u6" },
       { videoId := "v7", title := "T7", publishedAt := "2024-01-04", thumbnailUrl := "u7" }]
      [] [] [] rfl (by decide) (by decide)).1.2.1,
   (listingStoresCappedSorted { jobID := some "j1", email := some "a@b.c" } "j1" "k"
      [{ videoId := "v1", title := "T1", publishedAt := "2024-01-01", thumbnailUrl := "u1" },
       { videoId := "v2", title := "T2", publishedAt := "2024-01-05", thumbnailUrl := "u2" },
       { videoId := "v3", title := "T3", publishedAt := "2024-01-03", thumbnailUrl := "u3" },
       { videoId := "v4", title := "T4", publishedAt := "2024-01-07", thumbnailUrl := "u4" },
       { videoId := "v5", title := "T5", publishedAt := "2024-01-02", thumbnailUrl := "u5" },
       { videoId := "v6", title := "T6", publishedAt := "2024-01-06", thumbnailUrl := "u6" },
       { videoId := "v7", title := "T7", publishedAt := "2024-01-04", thumbnailUrl := "u7" }]
      [] [] [] rfl (by decide) (by decide)).1.2.2⟩

/-- Witness for `silentDrop_amended`: a failing search with a payload that
has no `jobID`. -/
theorem silentDrop_amended_witness :
    (jsTruthy (none : Option String) && jsTruthy (some "a@b.c")) = false ∧
    (resolveHandler { email := some "a@b.c", channel := some "@x" } (some "k")
        (.error "network error") (.ok []) []).events = [] :=
  ⟨by decide,
   ((silentDrop_amended { email := some "a@b.c", channel := some "@x" } (some "k")
        (.error "network error") (.ok []) (.ok []) [] (by decide)).1
      (Or.inr (Or.inr (Or.inl ⟨"@x", "network error", rfl, by decide, rfl⟩)))).1⟩

/-- Witness for `stageWrites_preserveFields`: the in-progress status write
of a concrete resolution invocation preserves the submitted record's
fields. -/
theorem stageWrites_preserveFields_witness :
    (("job: j1",
        ({ jobID := some "j1", channel := some "@acme", email := some "a@b.c", status := some "resolving channel", createdAt := some "t0" } : JobRecord)) ∈
      (resolveHandler { jobID := some "j1", email := some "a@b.c", channel := some "@acme" }
        (some "k") (.ok []) (.ok [])
        [("job: j1",
          { jobID := some "j1", channel := some "@acme", email := some "a@b.c", status := some "queued", createdAt := some "t0" })]).writes) ∧
    fieldsPreserved
      { jobID := some "j1", channel := some "@acme", email := some "a@b.c", status := some "resolving channel", createdAt := some "t0" }
      (spreadOf (stGet
        [("job: j1",
          { jobID := some "j1", channel := some "@acme", email := some "a@b.c", status := some "queued", createdAt := some "t0" })]
        "job: j1")) :=
  ⟨by decide,
   (stageWrites_preserveFields
      { jobID := some "j1", email := some "a@b.c", channel := some "@acme" }
      (some "k") (.ok []) (.ok []) (.ok [])
      [("job: j1",
        { jobID := some "j1", channel := some "@acme", email := some "a@b.c", status := some "queued", createdAt := some "t0" })]
      "job: j1"
      { jobID := some "j1", channel := some "@acme", email := some "a@b.c", status := some "resolving channel", createdAt := some "t0" }).1
     (by decide)⟩
